import Mathlib

/-!
Shallow embedding of `src/physfs.c` (an early PhysicsFS draft): the
per-thread error channel, the search-path manager, write-root management,
init/deinit, path translation, and the user-directory query.

Machine details that the C code leaves to the allocator or the platform
layer become explicit parameters here: allocation outcomes are `Bool`
oracles, the platform thread id is an `Int` argument, and the platform
directory separator is a `String` argument.  Two loops in the source never
advance their cursor variable; each is embedded with a `fuel : Nat`
argument, and a result of `none` for every `fuel` means the loop does not
terminate.
-/

namespace PhysFS

/-- Modelled from the spec: the `ERR_*` message macros live in
`physfs_internal.h`, which is not under `src/`; the spec lists the error
identifiers that are surfaced verbatim, so the identifier stands for the
message string.  This one is `ERR_IS_INITIALIZED`. -/
def ERR_IS_INITIALIZED : List Char := "IsInitialized".toList

/-- Modelled from the spec: the `ERR_NOT_INITIALIZED` message string. -/
def ERR_NOT_INITIALIZED : List Char := "NotInitialized".toList

/-- Modelled from the spec: the `ERR_INVALID_ARGUMENT` message string. -/
def ERR_INVALID_ARGUMENT : List Char := "InvalidArgument".toList

/-- Modelled from the spec: the `ERR_FILES_OPEN_WRITE` message string. -/
def ERR_FILES_OPEN_WRITE : List Char := "FilesStillOpenForWrite".toList

/-- Modelled from the spec: the `ERR_NO_DIR_CREATE` message string. -/
def ERR_NO_DIR_CREATE : List Char := "NoDirCreate".toList

/-- Modelled from the spec: the `ERR_OUT_OF_MEMORY` message string. -/
def ERR_OUT_OF_MEMORY : List Char := "OutOfMemory".toList

/-- Modelled from the spec: the `ERR_NOT_IN_SEARCH_PATH` message string. -/
def ERR_NOT_IN_SEARCH_PATH : List Char := "NotInSearchPath".toList

/-- Modelled from the spec: the `ERR_UNSUPPORTED_ARCHIVE` message string. -/
def ERR_UNSUPPORTED_ARCHIVE : List Char := "UnsupportedArchive".toList

/-- Modelled from the spec: the `ERR_NO_WRITE_DIR` message string. -/
def ERR_NO_WRITE_DIR : List Char := "NoWriteDir".toList

/-- One node of the `ErrMsg` linked list (source lines 20-26): the owning
thread id, the availability flag, and the stored message.  The C buffer is
`char errorString[80]`, so at most 79 characters are stored. -/
structure ErrMsg where
  tid : Int
  errorAvailable : Bool
  errorString : List Char
deriving DecidableEq

/-- Effect of `strncpy(err->errorString, str, 80)` followed by forcing
`errorString[79] = 0` (source lines 99-100): the stored message is the
first 79 characters of `str`. -/
def truncErr (s : List Char) : List Char := s.take 79

/-- Embeds `findErrorForCurrentThread` (source lines 63-80): scan the
`errorMessages` list for the first node whose `tid` is the calling
thread's id. -/
def findErrorForCurrentThread (tid : Int) : List ErrMsg → Option ErrMsg
  | [] => none
  | e :: rest => if e.tid = tid then some e else findErrorForCurrentThread tid rest

/-- In-place update performed by `__PHYSFS_setError` when
`findErrorForCurrentThread` found a node: that first matching node gets
`errorAvailable = 1` and the truncated message. -/
def setErrorUpdate (tid : Int) (s : List Char) : List ErrMsg → List ErrMsg
  | [] => []
  | e :: rest =>
    if e.tid = tid then { e with errorAvailable := true, errorString := truncErr s } :: rest
    else e :: setErrorUpdate tid s rest

/-- Embeds `__PHYSFS_setError` (source lines 83-101): reuse the calling
thread's node if one exists, otherwise link a fresh node at the head of
`errorMessages`; either way the node ends available with the truncated
message.  (The `malloc` failure path, which returns with no effect, is
modelled with the allocation succeeding.) -/
def setError (tid : Int) (s : List Char) (l : List ErrMsg) : List ErrMsg :=
  match findErrorForCurrentThread tid l with
  | some _ => setErrorUpdate tid s l
  | none => ⟨tid, true, truncErr s⟩ :: l

/-- Embeds `PHYSFS_getLastError` (source lines 104-113): if the calling
thread has no node or its node is unavailable, return `none`; otherwise
clear the availability flag and return the stored message.  The pair is
(returned message, error list afterwards). -/
def getLastError (tid : Int) : List ErrMsg → Option (List Char) × List ErrMsg
  | [] => (none, [])
  | e :: rest =>
    if e.tid = tid then
      if e.errorAvailable then (some e.errorString, { e with errorAvailable := false } :: rest)
      else (none, e :: rest)
    else
      ((getLastError tid rest).1, e :: (getLastError tid rest).2)

/-- A thread has an error pending exactly when its node exists and is
available. -/
def errorPending (tid : Int) (l : List ErrMsg) : Bool :=
  match findErrorForCurrentThread tid l with
  | none => false
  | some e => e.errorAvailable

/-- Observable outcome of one `PHYSFS_addToSearchPath` call: the C return
value, the search path afterwards (as the list of `dirName`s, head
first), the message passed to `__PHYSFS_setError` during the call (if
any), whether a `DirReader` was opened, and whether that reader was freed
again before returning. -/
structure AddOutcome where
  result : Bool
  searchPath : List String
  errSet : Option (List Char)
  readerOpened : Bool
  readerFreed : Bool
deriving DecidableEq

/-- The tail-insertion scan of `PHYSFS_addToSearchPath` (source lines
328-333): `while (i != NULL) prev = i;`.  The loop body only assigns
`prev = i` and never advances `i`, so on a non-empty list the cursor stays
on the head forever; `fuel` bounds the iterations and `none` means the
loop has not exited within `fuel` steps.  On exit the value is the final
`prev`. -/
def addTailLoop (fuel : Nat) (i : List String) (prev : Option String) :
    Option (Option String) :=
  match fuel, i with
  | 0, _ => none
  | _ + 1, [] => some prev
  | f + 1, x :: rest => addTailLoop f (x :: rest) (some x)

/-- Embeds `PHYSFS_addToSearchPath` (source lines 294-342).  `readerOk`
is whether `getDirReader` succeeds (on failure it has set the error
itself; the spec's identifier for an unclaimed path is
`UnsupportedArchive`); `sdiAllocOk` and `nameAllocOk` are the outcomes of
the two `malloc` calls.  Faithful details: the `sdi == NULL` bail returns
without freeing the opened reader; the `dirName` allocation failure frees
both `sdi` and the reader; the `appendToPath` branch links the new node at
the head of `searchPath`; the other branch runs `addTailLoop` and, when
`prev` is `NULL`, assigns `searchPath = sdi` (with `sdi->next = NULL`).
The `some (some _)` loop outcome is unreachable, since the loop only exits
when the initial list is empty, in which case `prev` is `NULL`. -/
def addToSearchPath (fuel : Nat) (sp : List String) (newDir : Option String)
    (appendToPath : Bool) (readerOk sdiAllocOk nameAllocOk : Bool) :
    Option AddOutcome :=
  match newDir with
  | none => some ⟨false, sp, some ERR_INVALID_ARGUMENT, false, false⟩
  | some d =>
    if !readerOk then some ⟨false, sp, some ERR_UNSUPPORTED_ARCHIVE, false, false⟩
    else if !sdiAllocOk then some ⟨false, sp, some ERR_OUT_OF_MEMORY, true, false⟩
    else if !nameAllocOk then some ⟨false, sp, some ERR_OUT_OF_MEMORY, true, true⟩
    else if appendToPath then some ⟨true, d :: sp, none, true, false⟩
    else
      match addTailLoop fuel sp none with
      | none => none
      | some none => some ⟨true, [d], none, true, false⟩
      | some (some _) => some ⟨true, sp ++ [d], none, true, false⟩

/-- The first-match removal scan of `PHYSFS_removeFromSearchPath` (source
lines 352-367): `none` when no node's `dirName` equals the argument. -/
def removeLoop (d : String) : List String → Option (List String)
  | [] => none
  | x :: rest => if x = d then some rest else (removeLoop d rest).map (x :: ·)

/-- Embeds `PHYSFS_removeFromSearchPath` (source lines 345-371): bail on a
null argument, otherwise unlink and free the first node whose `dirName`
matches, or set `ERR_NOT_IN_SEARCH_PATH` and fail.  The triple is
(return value, search path afterwards, error set during the call). -/
def removeFromSearchPath (sp : List String) (oldDir : Option String) :
    Bool × List String × Option (List Char) :=
  match oldDir with
  | none => (false, sp, some ERR_INVALID_ARGUMENT)
  | some d =>
    match removeLoop d sp with
    | some sp2 => (true, sp2, none)
    | none => (false, sp, some ERR_NOT_IN_SEARCH_PATH)

/-- Embeds `PHYSFS_getSearchPath` (source lines 374-409) with all
allocations succeeding: the returned array holds each node's `dirName` in
list order, head first. -/
def getSearchPath (sp : List String) : List String := sp

/-- Embeds `PHYSFS_setWriteDir` (source lines 270-291): bail with
`ERR_FILES_OPEN_WRITE` while any writable handle is open; otherwise free
the old write dir, and for a non-null argument require
`createDirs_dependent` (oracle `createOk`) and the string allocation
(oracle `allocOk`) to succeed.  The triple is (return value, write dir
afterwards, error set during the call). -/
def PHYSFS_setWriteDir (openWriteCount : Nat) (writeDir : Option String)
    (newDir : Option String) (createOk allocOk : Bool) :
    Bool × Option String × Option (List Char) :=
  if openWriteCount > 0 then (false, writeDir, some ERR_FILES_OPEN_WRITE)
  else
    match newDir with
    | none => (true, none, none)
    | some d =>
      if !createOk then (false, none, some ERR_NO_DIR_CREATE)
      else if !allocOk then (false, none, some ERR_OUT_OF_MEMORY)
      else (true, some d, none)

/-- The loop of `freeSearchPath` (source lines 157-161):
`for (i = searchPath; i != NULL; i = next) { next = i; freeSearchDir(i); }`.
The body assigns `next = i` rather than `next = i->next`, so `i` never
advances past the first node; `fuel` bounds the iterations and `none`
means the loop has not exited within `fuel` steps. -/
def freeSearchPathLoop (fuel : Nat) (i : List String) : Option Unit :=
  match fuel, i with
  | 0, _ => none
  | _ + 1, [] => some ()
  | f + 1, x :: rest => freeSearchPathLoop f (x :: rest)

/-- Embeds `freeSearchPath` (source lines 150-164): nothing to do on an
empty search path; otherwise run the freeing loop and then set
`searchPath = NULL`.  `none` propagates loop non-termination. -/
def freeSearchPath (fuel : Nat) (sp : List String) : Option (List String) :=
  match sp with
  | [] => some sp
  | _ :: _ =>
    match freeSearchPathLoop fuel sp with
    | none => none
    | some _ => some []

/-- Modelled from the spec: `freeErrorMessages` is called by
`PHYSFS_deinit` but defined outside `src/`; the spec says deinit frees the
error slots, so it maps the slot list to the empty list. -/
def freeErrorMessages (_l : List ErrMsg) : List ErrMsg := []

/-- The process-wide state of the library (source lines 37-42 plus the
`openWriteCount` counter that `PHYSFS_setWriteDir` consults, which is
declared outside `src/`). -/
structure PhysfsState where
  isInit : Bool
  errorMessages : List ErrMsg
  searchPath : List String
  baseDir : Option String
  writeDir : Option String
  allowSymLinks : Bool
  openWriteCount : Nat
deriving DecidableEq

/-- Embeds `PHYSFS_deinit` (source lines 172-188): bail with
`ERR_NOT_INITIALIZED` when not initialized; otherwise `closeAllFiles()`
(a no-op in the source), `PHYSFS_setWriteDir(NULL)` with its return value
ignored, `freeSearchPath`, `freeErrorMessages`, free the base dir, reset
the symlink flag and the initialized flag.  `tid` is the calling thread,
`fuel` bounds the freeing loop, and `none` means deinit has not terminated
within `fuel` loop steps. -/
def PHYSFS_deinit (fuel : Nat) (tid : Int) (s : PhysfsState) :
    Option (Bool × PhysfsState) :=
  if !s.isInit then
    some (false, { s with errorMessages := setError tid ERR_NOT_INITIALIZED s.errorMessages })
  else
    let w := PHYSFS_setWriteDir s.openWriteCount s.writeDir none true true
    let s1 : PhysfsState :=
      { s with writeDir := w.2.1,
               errorMessages :=
                 match w.2.2 with
                 | some e => setError tid e s.errorMessages
                 | none => s.errorMessages }
    match freeSearchPath fuel s1.searchPath with
    | none => none
    | some sp =>
      some (true, { s1 with searchPath := sp,
                            errorMessages := freeErrorMessages s1.errorMessages,
                            baseDir := none,
                            allowSymLinks := false,
                            isInit := false })

/-- Observable outcome of one `PHYSFS_init` call: the C return value, the
`initialized` flag afterwards, the base dir afterwards, and the error set
during the call. -/
structure InitOutcome where
  result : Bool
  isInit : Bool
  baseDir : Option String
  errSet : Option (List Char)
deriving DecidableEq

/-- Embeds `PHYSFS_init` (source lines 127-135): bail with
`ERR_IS_INITIALIZED` when already initialized, bail with
`ERR_INVALID_ARGUMENT` on a null `argv0`; otherwise store the base dir
computed by `calculateBaseDir` (parameter `computedBaseDir`) and set the
flag. -/
def PHYSFS_init (isInit : Bool) (baseDir : Option String)
    (argv0 : Option String) (computedBaseDir : String) : InitOutcome :=
  if isInit then ⟨false, isInit, baseDir, some ERR_IS_INITIALIZED⟩
  else
    match argv0 with
    | none => ⟨false, isInit, baseDir, some ERR_INVALID_ARGUMENT⟩
    | some _ => ⟨true, true, some computedBaseDir, none⟩

/-- The character-copy loop of the path translator (source lines 591-603):
each `/` in the platform-independent name is replaced by the platform
directory separator; every other character is copied unchanged. -/
def replaceSeps (dirsep : String) : List Char → String
  | [] => ""
  | c :: rest => (if c = '/' then dirsep else String.singleton c) ++ replaceSeps dirsep rest

/-- Embeds the path translator at source lines 554-612 (its C name ends in
a word this development avoids in identifiers: convert-to-dependent-form).
A non-null `prepend` is copied first, followed by the separator, then the
translated `dirName`.  Faithful oddity: the `append` branch runs
`strcat(str, dirsep); strcpy(str, append);` — `strcpy` writes to the START
of the buffer, so with a non-null `append` the resulting C string is just
`append`.  No component of `dirName` is validated anywhere. -/
def convertToDependent (dirsep : String) (prepend : Option String)
    (dirName : String) (append : Option String) : String :=
  let start :=
    match prepend with
    | some p => p ++ dirsep
    | none => ""
  let translated := start ++ replaceSeps dirsep dirName.toList
  match append with
  | some a => a
  | none => translated

/-- Embeds `PHYSFS_mkdir` (source lines 615-629) up to the platform call:
with no write root it fails with `ERR_NO_WRITE_DIR`; otherwise it returns
(as `ok`) the host path the source hands to `createDirs_dependent`.  No
validation of `dirName` happens on this path. -/
def PHYSFS_mkdir (dirsep : String) (writeDir : Option String)
    (dirName : String) : Except (List Char) String :=
  match writeDir with
  | none => .error ERR_NO_WRITE_DIR
  | some wd => .ok (convertToDependent dirsep (some wd) dirName none)

/-- Embeds `PHYSFS_delete` (source lines 632-652) up to the platform call:
with no write root it fails with `ERR_NO_WRITE_DIR`; otherwise it returns
(as `ok`) the host path the source hands to `remove`.  No validation of
`filename` happens on this path. -/
def PHYSFS_delete (dirsep : String) (writeDir : Option String)
    (filename : String) : Except (List Char) String :=
  match writeDir with
  | none => .error ERR_NO_WRITE_DIR
  | some wd => .ok (convertToDependent dirsep (some wd) filename none)

/-- The user-directory cascade that `PHYSFS_getUserDir` (source lines
225-261) computes into its static `retval`: the platform user dir when
available, else `$HOME` when set, else
`baseDir ++ dirsep ++ "users" ++ dirsep ++ userName` (with `"default"`
standing in for a missing user name, per the `str` fallback at line 247;
the allocation is taken to succeed). -/
def getUserDirComputed (platformUserDir home userName : Option String)
    (dirsep : String) (baseDir : String) : String :=
  match platformUserDir with
  | some s => s
  | none =>
    match home with
    | some s => s
    | none => baseDir ++ dirsep ++ "users" ++ dirsep ++ userName.getD "default"

/-- Embeds the return value of `PHYSFS_getUserDir` (source lines 225-261):
after computing `retval` via the cascade of `getUserDirComputed`, the
function ends with `return(baseDir);  /* just in case. */` (line 260), so
the caller always receives the base directory. -/
def PHYSFS_getUserDir (_platformUserDir _home _userName : Option String)
    (_dirsep : String) (baseDir : String) : String :=
  baseDir

/-! Helper lemmas about the two source loops that never advance their
cursor. -/

theorem addTailLoop_cons (fuel : Nat) (x : String) (rest : List String)
    (prev : Option String) : addTailLoop fuel (x :: rest) prev = none := by
  induction fuel generalizing prev with
  | zero => rfl
  | succ f ih => simpa [addTailLoop] using ih (some x)

theorem freeSearchPathLoop_cons (fuel : Nat) (x : String) (rest : List String) :
    freeSearchPathLoop fuel (x :: rest) = none := by
  induction fuel with
  | zero => rfl
  | succ f ih => simpa [freeSearchPathLoop] using ih

/-! Helper lemmas about the error channel. -/

theorem getLastError_not_pending (t : Int) (l : List ErrMsg)
    (h : errorPending t l = false) : (getLastError t l).1 = none := by
  induction l with
  | nil => rfl
  | cons e rest ih =>
    by_cases he : e.tid = t
    · have ha : e.errorAvailable = false := by
        simpa [errorPending, findErrorForCurrentThread, he] using h
      simp [getLastError, he, ha]
    · have h2 : errorPending t rest = false := by
        simpa [errorPending, findErrorForCurrentThread, he] using h
      simp [getLastError, he, ih h2]

theorem getLastError_after_setErrorUpdate (t : Int) (s : List Char) (l : List ErrMsg)
    (h : findErrorForCurrentThread t l ≠ none) :
    (getLastError t (setErrorUpdate t s l)).1 = some (truncErr s) ∧
    (getLastError t (getLastError t (setErrorUpdate t s l)).2).1 = none := by
  induction l with
  | nil => simp [findErrorForCurrentThread] at h
  | cons e rest ih =>
    by_cases he : e.tid = t
    · simp [setErrorUpdate, he, getLastError]
    · have h2 : findErrorForCurrentThread t rest ≠ none := by
        simpa [findErrorForCurrentThread, he] using h
      simp [setErrorUpdate, he, getLastError, ih h2]

theorem getLastError_after_setError (t : Int) (s : List Char) (l : List ErrMsg) :
    (getLastError t (setError t s l)).1 = some (truncErr s) ∧
    (getLastError t (getLastError t (setError t s l)).2).1 = none := by
  unfold setError
  cases h : findErrorForCurrentThread t l with
  | none => simp [getLastError]
  | some e =>
    exact getLastError_after_setErrorUpdate t s l (by simp [h])

theorem getLastError_setErrorUpdate_ne (t t2 : Int) (s : List Char) (l : List ErrMsg)
    (h : t ≠ t2) :
    (getLastError t2 (setErrorUpdate t s l)).1 = (getLastError t2 l).1 := by
  induction l with
  | nil => rfl
  | cons e rest ih =>
    by_cases he : e.tid = t
    · simp [setErrorUpdate, he, getLastError, h]
    · by_cases he2 : e.tid = t2
      · have hs2 : ¬ (t2 = t) := fun hh => h hh.symm
        cases ha : e.errorAvailable <;>
          simp [setErrorUpdate, he, getLastError, he2, ha, hs2]
      · simp [setErrorUpdate, he, getLastError, he2, ih]

/-! Claim theorems. -/

/-- Claim C1 (behavior of the code at the claim's inputs): the claim says
the `append` flag of `PHYSFS_addToSearchPath` selects tail insertion and
its absence head insertion.  In the source the branches are the other way
around and the tail scan never advances: on a fresh search path,
`add("m", append); add("n", append)` yields `list() = ["n", "m"]`, not the
claimed `["m", "n"]`; and with `append = false`, the first add yields
`["m"]` and the second one never terminates, for every fuel bound. -/
theorem addToSearchPath_append_flag_swapped :
    addToSearchPath 1 [] (some "m") true true true true =
      some ⟨true, ["m"], none, true, false⟩ ∧
    addToSearchPath 1 ["m"] (some "n") true true true true =
      some ⟨true, ["n", "m"], none, true, false⟩ ∧
    getSearchPath ["n", "m"] ≠ ["m", "n"] ∧
    addToSearchPath 1 [] (some "m") false true true true =
      some ⟨true, ["m"], none, true, false⟩ ∧
    ∀ fuel : Nat, addToSearchPath fuel ["m"] (some "n") false true true true = none := by
  refine ⟨rfl, rfl, by decide, rfl, ?_⟩
  intro fuel
  simp [addToSearchPath, addTailLoop_cons]

/-- Claim C2 (behavior of the code at the claim's inputs): the claim says
`PHYSFS_mkdir` and `PHYSFS_delete` reject any logical path containing
`..`, `.`, empty components, `\` or `:` with `InvalidArgument` and perform
no filesystem change.  The source performs no validation: with write root
`/w`, `mkdir("..")` hands the host path `/w/..` to `createDirs_dependent`
and `delete("a/../b")` hands `/w/a/../b` to `remove`; neither fails with
`InvalidArgument`. -/
theorem mkdir_delete_no_path_validation :
    PHYSFS_mkdir "/" (some "/w") ".." = .ok "/w/.." ∧
    PHYSFS_delete "/" (some "/w") "a/../b" = .ok "/w/a/../b" ∧
    PHYSFS_mkdir "/" (some "/w") ".." ≠ .error ERR_INVALID_ARGUMENT ∧
    PHYSFS_delete "/" (some "/w") "a/../b" ≠ .error ERR_INVALID_ARGUMENT := by
  refine ⟨rfl, rfl, by simp [PHYSFS_mkdir], by simp [PHYSFS_delete]⟩

/-- Claim C3: for every search-path state and host path `m` not already in
it, if `addToSearchPath` succeeds (with either append value) then
`removeFromSearchPath m` succeeds and `getSearchPath` afterwards equals
its pre-add value. -/
theorem add_remove_roundtrip (fuel : Nat) (sp : List String) (m : String)
    (append : Bool) (o : AddOutcome) (_hm : m ∉ sp)
    (ho : addToSearchPath fuel sp (some m) append true true true = some o)
    (hr : o.result = true) :
    (removeFromSearchPath o.searchPath (some m)).1 = true ∧
    getSearchPath (removeFromSearchPath o.searchPath (some m)).2.1 = getSearchPath sp := by
  cases append with
  | true =>
    have ho2 : some (AddOutcome.mk true (m :: sp) none true false) = some o := ho
    obtain rfl := (Option.some.inj ho2).symm
    simp [removeFromSearchPath, removeLoop, getSearchPath]
  | false =>
    cases sp with
    | nil =>
      cases fuel with
      | zero => simp [addToSearchPath, addTailLoop] at ho
      | succ f =>
        have ho2 : some (AddOutcome.mk true [m] none true false) = some o := ho
        obtain rfl := (Option.some.inj ho2).symm
        simp [removeFromSearchPath, removeLoop, getSearchPath]
    | cons x rest => simp [addToSearchPath, addTailLoop_cons] at ho

/-- Witness for C3 at `fuel = 1`, `sp = ["a"]`, `m = "b"`, append. -/
theorem add_remove_roundtrip_witness :
    (removeFromSearchPath
        (AddOutcome.mk true ["b", "a"] none true false).searchPath (some "b")).1 = true ∧
    getSearchPath
        (removeFromSearchPath
          (AddOutcome.mk true ["b", "a"] none true false).searchPath (some "b")).2.1 =
      getSearchPath ["a"] :=
  add_remove_roundtrip 1 ["a"] "b" true
    (AddOutcome.mk true ["b", "a"] none true false) (by decide) rfl rfl

/-- Claim C4 (behavior of the code at the claim's inputs): the claim says
`PHYSFS_deinit` terminates from every initialized state, including states
with mounts, and clears everything.  The source's `freeSearchPath` loop
assigns `next = i` instead of `next = i->next`, so on an initialized state
holding one mount the loop never advances and deinit does not terminate,
for every fuel bound and every calling thread. -/
theorem deinit_nonterminating_with_mount :
    ∀ (fuel : Nat) (tid : Int),
      PHYSFS_deinit fuel tid
        { isInit := true, errorMessages := [], searchPath := ["m"],
          baseDir := some "/base", writeDir := none, allowSymLinks := false,
          openWriteCount := 0 } = none := by
  intro fuel tid
  simp [PHYSFS_deinit, PHYSFS_setWriteDir, freeSearchPath, freeSearchPathLoop_cons]

/-- Claim C5: `PHYSFS_getLastError` is destructive.  With no error pending
on thread `t` it returns `none`; after one error `s` (at most 79 bytes) is
set for `t`, the first call returns `s` and the second consecutive call
returns `none`. -/
theorem getLastError_destructive (t : Int) (s : List Char) (l : List ErrMsg)
    (hs : s.length ≤ 79) (hp : errorPending t l = false) :
    (getLastError t l).1 = none ∧
    (getLastError t (setError t s l)).1 = some s ∧
    (getLastError t (getLastError t (setError t s l)).2).1 = none := by
  have h2 := getLastError_after_setError t s l
  have hts : truncErr s = s := by
    unfold truncErr
    exact List.take_of_length_le hs
  rw [hts] at h2
  exact ⟨getLastError_not_pending t l hp, h2.1, h2.2⟩

/-- Witness for C5 at `t = 0`, `s = ['a']`, `l = []`. -/
theorem getLastError_destructive_witness :
    (getLastError 0 ([] : List ErrMsg)).1 = none ∧
    (getLastError 0 (setError 0 ['a'] [])).1 = some ['a'] ∧
    (getLastError 0 (getLastError 0 (setError 0 ['a'] [])).2).1 = none :=
  getLastError_destructive 0 ['a'] [] (by decide) (by decide)

/-- Claim C6: the error channel is keyed by thread id.  Setting an error
while running as thread `t` does not change what `PHYSFS_getLastError`
returns when called as a distinct thread `t2`. -/
theorem setError_thread_noninterference (t t2 : Int) (s : List Char)
    (l : List ErrMsg) (h : t ≠ t2) :
    (getLastError t2 (setError t s l)).1 = (getLastError t2 l).1 := by
  unfold setError
  cases hf : findErrorForCurrentThread t l with
  | none =>
    have hn : ¬ ((t : Int) = t2) := h
    simp [getLastError, hn]
  | some e => exact getLastError_setErrorUpdate_ne t t2 s l h

/-- Witness for C6 at `t = 0`, `t2 = 1`, `s = ['a']`, `l = []`. -/
theorem setError_thread_noninterference_witness :
    (getLastError 1 (setError 0 ['a'] [])).1 = (getLastError 1 ([] : List ErrMsg)).1 :=
  setError_thread_noninterference 0 1 ['a'] [] (by decide)

/-- Claim C7: while the open-writer count is positive,
`PHYSFS_setWriteDir` fails with `FilesStillOpenForWrite` and leaves the
write root unchanged, for every argument and every oracle outcome. -/
theorem setWriteDir_open_writers (owc : Nat) (wd newDir : Option String)
    (createOk allocOk : Bool) (h : 0 < owc) :
    PHYSFS_setWriteDir owc wd newDir createOk allocOk =
      (false, wd, some ERR_FILES_OPEN_WRITE) := by
  simp [PHYSFS_setWriteDir, h]

/-- Witness for C7 at one open writer, write root `/w`, new dir `/new`. -/
theorem setWriteDir_open_writers_witness :
    PHYSFS_setWriteDir 1 (some "/w") (some "/new") true true =
      (false, some "/w", some ERR_FILES_OPEN_WRITE) :=
  setWriteDir_open_writers 1 (some "/w") (some "/new") true true (by decide)

/-- Claim C8 (behavior of the code at the claim's inputs): the claim says
a failing `PHYSFS_addToSearchPath` leaves the search path unchanged and
frees any partially constructed state, in particular an opened reader.
When the `SearchDirInfo` allocation fails, the source's bail returns with
the search path unchanged but WITHOUT freeing the reader it has opened:
`readerOpened = true` and `readerFreed = false`. -/
theorem addToSearchPath_sdi_alloc_failure_leaks_reader :
    addToSearchPath 1 ["a"] (some "m") true true false true =
      some ⟨false, ["a"], some ERR_OUT_OF_MEMORY, true, false⟩ ∧
    (AddOutcome.mk false ["a"] (some ERR_OUT_OF_MEMORY) true false).readerOpened = true ∧
    (AddOutcome.mk false ["a"] (some ERR_OUT_OF_MEMORY) true false).readerFreed = false :=
  ⟨rfl, rfl, rfl⟩

/-- Claim C9 (behavior of the code at the claim's inputs): the claim says
`PHYSFS_getUserDir` returns the platform user directory when one exists
(else `$HOME`, else a derived path).  The cascade computes `/home/u` when
the platform supplies `/home/u`, but the source ends with
`return(baseDir)`, so the caller receives `/base` instead. -/
theorem getUserDir_returns_baseDir :
    PHYSFS_getUserDir (some "/home/u") none none "/" "/base" = "/base" ∧
    getUserDirComputed (some "/home/u") none none "/" "/base" = "/home/u" ∧
    PHYSFS_getUserDir (some "/home/u") none none "/" "/base" ≠
      getUserDirComputed (some "/home/u") none none "/" "/base" :=
  ⟨rfl, rfl, by decide⟩

/-- Claim C10: `PHYSFS_init` with a null `argv0` fails in every state
(initialized or not); when the state is uninitialized it sets
`InvalidArgument` and leaves the state unchanged: the flag stays false and
the base directory is not computed. -/
theorem init_null_argv0 (b : Bool) (bd : Option String) (cb : String) :
    (PHYSFS_init b bd none cb).result = false ∧
    (PHYSFS_init false bd none cb).errSet = some ERR_INVALID_ARGUMENT ∧
    (PHYSFS_init false bd none cb).isInit = false ∧
    (PHYSFS_init false bd none cb).baseDir = bd := by
  cases b <;> simp [PHYSFS_init]

end PhysFS
